import Mathlib

/-!
Verification of the QBot training pipeline (Python sources under src/Training).

Shallow embedding conventions:
* Timestamps: the session classifier (session_grouper.py) works on Eastern-Time
  datetimes.  A datetime is embedded as a calendar day number (an integer, with
  day `d` having Python weekday `d % 7`, so day 0 is a Monday) together with a
  time-of-day in minutes since midnight.  All session boundaries in the source
  are whole minutes, so minute granularity is exact for every comparison.
* Arrays: numpy arrays are embedded as index functions `ℕ → ℚ`; the array
  produced by an indicator is embedded as the function giving its value at each
  index.  Machine floats are modelled by ℚ (the source only adds, subtracts,
  multiplies, divides and compares).
* `np.sqrt` / `np.std`: square roots of rationals are irrational, so the float
  square-root routine is passed in as an explicit function parameter `sqrtF`;
  every theorem quantifies over it.
* The bootstrap test (parameter_optimization_validator.bootstrap_test) draws
  random resamples via np.random; its result is modelled as an explicit
  function parameter returning the p-value.
-/

/-- An Eastern-Time datetime: `day` is the calendar day number (weekday is
`day % 7`, day 0 is a Monday, matching Python's `weekday()` convention with
Monday = 0), `tod` is the time of day in minutes since midnight. -/
structure DT where
  day : ℤ
  tod : ℕ
  deriving DecidableEq, Repr

/-- Python `dt.weekday()`: Monday = 0 … Sunday = 6. -/
def weekdayOf (d : DT) : ℤ := d.day % 7

/-- Session boundaries from session_grouper.py, in minutes since midnight. -/
def PREMARKET_START : ℕ := 4 * 60
def MARKET_OPEN : ℕ := 9 * 60 + 30
def MARKET_CLOSE : ℕ := 16 * 60
def POSTMARKET_END : ℕ := 20 * 60
def CME_OPEN_SUNDAY : ℕ := 18 * 60
def CME_MAINTENANCE_START : ℕ := 17 * 60
def CME_MAINTENANCE_END : ℕ := 18 * 60

/-- session_grouper.determine_market_session: stock-market session name from an
Eastern-Time datetime.  Weekends are always "Closed". -/
def determine_market_session (dt_et : DT) : String :=
  if weekdayOf dt_et = 5 ∨ weekdayOf dt_et = 6 then "Closed"
  else
    let t := dt_et.tod
    if t < PREMARKET_START then "Closed"
    else if t < MARKET_OPEN then "PreMarket"
    else if t < MARKET_CLOSE then "Open"
    else if t < POSTMARKET_END then "PostMarket"
    else "Closed"

/-- session_grouper.cme_trading_day: returns
`(trading_day_date, session_name, is_maintenance)` for an Eastern-Time
timestamp.  `timestamp ± timedelta(days = k)` followed by `.date()` is embedded
as `day ± k`. -/
def cme_trading_day (timestamp_et : DT) : ℤ × String × Bool :=
  let t := timestamp_et.tod
  let weekday := weekdayOf timestamp_et
  let is_maintenance : Bool :=
    decide (CME_MAINTENANCE_START ≤ t ∧ t < CME_MAINTENANCE_END)
  let session_name : String :=
    if MARKET_OPEN ≤ t ∧ t < MARKET_CLOSE then "RTH"
    else if MARKET_CLOSE ≤ t ∧ t < CME_MAINTENANCE_START then "PostRTH"
    else "Overnight"
  let trading_day : ℤ :=
    if weekday = 6 then
      if CME_OPEN_SUNDAY ≤ t then timestamp_et.day + 1
      else timestamp_et.day - 2
    else if weekday = 5 then timestamp_et.day - 1
    else
      if CME_MAINTENANCE_END ≤ t then timestamp_et.day + 1
      else timestamp_et.day
  (trading_day, session_name, is_maintenance)

/-- C1: the spec (and the function's own docstring) say a bar at Friday
19:00 ET belongs to that same Friday's trading day, while the spec's general
weekday rule says any Monday–Friday timestamp at or after the 18:00 break end
gets the *next* calendar date.  The code implements the general rule with no
Friday special case, so at Friday 19:00 (day 4, 19:00 = 1140 minutes) it
returns the Saturday date (day 5), not Friday (day 4) — contradicting the
docstring "A bar at Friday 7:00 PM ET belongs to Friday's trading day".
This theorem evaluates the embedded code at that failing input. -/
theorem c1_friday_evening_gets_saturday :
    cme_trading_day ⟨4, 1140⟩ = (5, "Overnight", false) ∧ (5 : ℤ) ≠ 4 := by
  decide

/-- C10: `cme_trading_day` assigns `session_name` purely from the time of day,
never consulting the weekday: two timestamps with the same time of day always
get the same session name, so a Saturday or Sunday timestamp inside regular
market hours [09:30, 16:00) is labelled "RTH" (and "PostRTH" on [16:00, 17:00))
even though the market is closed, while `determine_market_session` returns
"Closed" for every weekend timestamp. -/
theorem c10_session_ignores_weekday (d1 d2 : DT)
    (hwk : weekdayOf d1 = 5 ∨ weekdayOf d1 = 6) :
    (d1.tod = d2.tod → (cme_trading_day d1).2.1 = (cme_trading_day d2).2.1) ∧
    (MARKET_OPEN ≤ d1.tod ∧ d1.tod < MARKET_CLOSE →
      (cme_trading_day d1).2.1 = "RTH") ∧
    (MARKET_CLOSE ≤ d1.tod ∧ d1.tod < CME_MAINTENANCE_START →
      (cme_trading_day d1).2.1 = "PostRTH") ∧
    determine_market_session d1 = "Closed" := by
  refine ⟨?_, ?_, ?_, ?_⟩
  · intro h
    simp only [cme_trading_day, h]
  · intro h
    simp only [cme_trading_day, if_pos h]
  · intro h
    have hno : ¬ (MARKET_OPEN ≤ d1.tod ∧ d1.tod < MARKET_CLOSE) := by
      rintro ⟨-, hb⟩
      exact absurd h.1 (by omega)
    simp only [cme_trading_day, if_neg hno, if_pos h]
  · simp only [determine_market_session, if_pos hwk]

/-- Witness for C10 at Saturday 10:00 ET (day 5, 600 minutes): the weekend
timestamp is classified "RTH" by `cme_trading_day` while
`determine_market_session` says "Closed". -/
theorem c10_session_ignores_weekday_witness :
    (weekdayOf ⟨5, 600⟩ = 5 ∨ weekdayOf ⟨5, 600⟩ = 6) ∧
    ((cme_trading_day ⟨5, 600⟩).2.1 = "RTH" ∧
      determine_market_session ⟨5, 600⟩ = "Closed") :=
  ⟨by decide,
    ((c10_session_ignores_weekday ⟨5, 600⟩ ⟨5, 600⟩ (by decide)).2.1 (by decide)),
    (c10_session_ignores_weekday ⟨5, 600⟩ ⟨5, 600⟩ (by decide)).2.2.2⟩

/-!
### Indicators (fast_backtest_engine.py)

Arrays are embedded as index functions; `compute_xxx_numba high low close p i`
is the value at index `i` of the array the Python function returns.  The loop
bound `n` (the array length) never influences the value written at an index
`i < n`, so it does not appear in the pointwise embedding.  Degenerate periods
(`period = 0`, where the source would divide by zero / average an empty slice
into NaN) are excluded by hypotheses where relevant.
-/

/-- Sum of `f` over the `len` indices starting at `start`
(the slice `[start, start+len)`). -/
def sliceSum (f : ℕ → ℚ) (start len : ℕ) : ℚ :=
  ((List.range' start len).map f).sum

/-- True range at bar `i` (compute_atr_numba's `tr` array): 0 at index 0, and
`max(high-low, |high-prev_close|, |low-prev_close|)` for `i ≥ 1`. -/
def trueRange (high low close : ℕ → ℚ) : ℕ → ℚ
  | 0 => 0
  | i + 1 =>
      max (high (i + 1) - low (i + 1))
        (max |high (i + 1) - close i| |low (i + 1) - close i|)

/-- compute_atr_numba: zero before index `period`, the simple mean of
`tr[1..period]` at index `period`, then exponential smoothing with
multiplier `1/period`. -/
def compute_atr_numba (high low close : ℕ → ℚ) (period : ℕ) : ℕ → ℚ
  | 0 => 0
  | i + 1 =>
      if i + 1 < period then 0
      else if i + 1 = period then sliceSum (trueRange high low close) 1 period / period
      else
        compute_atr_numba high low close period i +
          (1 / period) * (trueRange high low close (i + 1) -
            compute_atr_numba high low close period i)

/-- Per-index gain (compute_rsi_numba's `gains`): `max(delta, 0)` where
`delta j = close (j+1) - close j` (`np.where(delta > 0, delta, 0)`). -/
def rsiGain (close : ℕ → ℚ) (j : ℕ) : ℚ := max (close (j + 1) - close j) 0

/-- Per-index loss (compute_rsi_numba's `losses`): `max(-delta, 0)`
(`np.where(delta < 0, -delta, 0)`). -/
def rsiLoss (close : ℕ → ℚ) (j : ℕ) : ℚ := max (close j - close (j + 1)) 0

/-- Wilder smoothing of compute_rsi_numba: `rsiSmooth p g init k` is the
running average after the loop has processed `gains[period + k - 1]`, seeded
with `init = mean of the first period values`; each step is
`(avg * (period - 1) + g[period + k]) / period`. -/
def rsiSmooth (period : ℕ) (g : ℕ → ℚ) (init : ℚ) : ℕ → ℚ
  | 0 => init
  | k + 1 => (rsiSmooth period g init k * ((period : ℚ) - 1) + g (period + k)) / period

/-- compute_rsi_numba: 50 (the neutral default) for indices `≤ period`; for
`i ≥ period + 1` the value computed from the smoothed average gain and loss:
100 when the average loss is 0, else `100 - 100 / (1 + rs)`. -/
def compute_rsi_numba (close : ℕ → ℚ) (period : ℕ) (i : ℕ) : ℚ :=
  if i < period + 1 then 50
  else
    let k := i - period
    let avg_gain := rsiSmooth period (rsiGain close) (sliceSum (rsiGain close) 0 period / period) k
    let avg_loss := rsiSmooth period (rsiLoss close) (sliceSum (rsiLoss close) 0 period / period) k
    if avg_loss = 0 then 100
    else 100 - 100 / (1 + avg_gain / avg_loss)

/-- compute_vwap_distance_numba: 0 before index `window`; afterwards the
relative distance `(close[i] - vwap) / vwap` of the close from the rolling
volume-weighted average price over the window `[i-window, i)`, with 0 whenever
the window's volume sum or the vwap is not positive. -/
def compute_vwap_distance_numba (close volume : ℕ → ℚ) (window : ℕ) (i : ℕ) : ℚ :=
  if i < window then 0
  else
    let pv_sum := sliceSum (fun j => close j * volume j) (i - window) window
    let v_sum := sliceSum volume (i - window) window
    if 0 < v_sum then
      let vwap := pv_sum / v_sum
      if 0 < vwap then (close i - vwap) / vwap else 0
    else 0

/-- Population variance of `close` over the slice `[start, start+len)`
(the square of `np.std` of that slice). -/
def sliceVar (close : ℕ → ℚ) (start len : ℕ) : ℚ :=
  ((List.range' start len).map
    (fun j => (close j - sliceSum close start len / len) ^ 2)).sum / len

/-- compute_bollinger_width_numba: 0 before index `period`; afterwards
`(upper - lower) / middle` of the Bollinger bands over the window
`[i-period, i)`, where the standard deviation `np.std` is `sqrtF` of the
population variance. -/
def compute_bollinger_width_numba (close : ℕ → ℚ) (period : ℕ) (std_mult : ℚ)
    (sqrtF : ℚ → ℚ) (i : ℕ) : ℚ :=
  if i < period then 0
  else
    let middle := sliceSum close (i - period) period / period
    let std := sqrtF (sliceVar close (i - period) period)
    let upper := middle + std_mult * std
    let lower := middle - std_mult * std
    if 0 < middle then (upper - lower) / middle else 0

/-- The slice sum starting at 1 is the sum over the closed interval `[1, p]`. -/
lemma sliceSum_eq_Icc (f : ℕ → ℚ) (p : ℕ) :
    sliceSum f 1 p = ∑ j in Finset.Icc 1 p, f j := by
  induction p with
  | zero => simp [sliceSum]
  | succ p ih =>
      rw [sliceSum, List.range'_concat, List.map_append, List.sum_append,
        Finset.sum_Icc_succ_top (by omega : 1 ≤ p + 1)]
      simp only [List.map_cons, List.map_nil, List.sum_cons, List.sum_nil, add_zero]
      rw [show 1 + 1 * p = p + 1 by omega,
        show (List.map f (List.range' 1 p)).sum = sliceSum f 1 p from rfl, ih]

/-- Mapping two functions that agree on the elements of a list gives the
same list. -/
lemma mapAgree {f g : ℕ → ℚ} : ∀ l : List ℕ, (∀ j ∈ l, f j = g j) →
    l.map f = l.map g
  | [], _ => rfl
  | x :: xs, h => by
      simp only [List.map_cons, h x (List.mem_cons_self x xs),
        mapAgree xs (fun j hj => h j (List.mem_cons_of_mem x hj))]

/-- The slice sum only depends on the function's values on the slice. -/
lemma sliceSum_congr {f g : ℕ → ℚ} (s len : ℕ)
    (h : ∀ j, s ≤ j → j < s + len → f j = g j) :
    sliceSum f s len = sliceSum g s len := by
  unfold sliceSum
  rw [mapAgree (List.range' s len) (fun j hj => by
    have := List.mem_range'_1.mp hj
    exact h j this.1 this.2)]

/-- The slice variance only depends on the function's values on the slice. -/
lemma sliceVar_congr {f g : ℕ → ℚ} (s len : ℕ)
    (h : ∀ j, s ≤ j → j < s + len → f j = g j) :
    sliceVar f s len = sliceVar g s len := by
  unfold sliceVar
  rw [mapAgree (List.range' s len) (fun j hj => by
    have hm := List.mem_range'_1.mp hj
    rw [h j hm.1 hm.2, sliceSum_congr s len h])]

/-- The true range at index `j` only reads the inputs at indices `≤ j`. -/
lemma trueRange_congr {h1 l1 c1 h2 l2 c2 : ℕ → ℚ} {i : ℕ}
    (hag : ∀ j, j ≤ i → h1 j = h2 j ∧ l1 j = l2 j ∧ c1 j = c2 j)
    {j : ℕ} (hj : j ≤ i) :
    trueRange h1 l1 c1 j = trueRange h2 l2 c2 j := by
  cases j with
  | zero => rfl
  | succ j =>
      have hj1 := hag (j + 1) hj
      have hj0 := hag j (by omega)
      simp only [trueRange, hj1.1, hj1.2.1, hj1.2.2, hj0.2.2]

/-- The ATR value at index `i` only reads the inputs at indices `≤ i`. -/
lemma atr_congr (period : ℕ) {h1 l1 c1 h2 l2 c2 : ℕ → ℚ} :
    ∀ i, (∀ j, j ≤ i → h1 j = h2 j ∧ l1 j = l2 j ∧ c1 j = c2 j) →
      compute_atr_numba h1 l1 c1 period i = compute_atr_numba h2 l2 c2 period i := by
  intro i
  induction i with
  | zero => intro _; rfl
  | succ i ih =>
      intro hag
      have hrest : ∀ j, j ≤ i → h1 j = h2 j ∧ l1 j = l2 j ∧ c1 j = c2 j :=
        fun j hj => hag j (by omega)
      by_cases hlt : i + 1 < period
      · simp only [compute_atr_numba, if_pos hlt]
      · by_cases heq : i + 1 = period
        · simp only [compute_atr_numba, if_neg hlt, if_pos heq]
          rw [sliceSum_congr 1 period (fun j h1j h2j =>
            trueRange_congr hag (by omega))]
        · simp only [compute_atr_numba, if_neg hlt, if_neg heq]
          rw [ih hrest, trueRange_congr hag (le_refl (i + 1))]

/-- The Wilder smoothing only reads `g` below `period + k` (plus the seed). -/
lemma rsiSmooth_congr (period : ℕ) {g1 g2 : ℕ → ℚ} {i1 i2 : ℚ} :
    ∀ k, (∀ m, m < period + k → g1 m = g2 m) → i1 = i2 →
      rsiSmooth period g1 i1 k = rsiSmooth period g2 i2 k := by
  intro k
  induction k with
  | zero => intro _ h; exact h
  | succ k ih =>
      intro hg hinit
      simp only [rsiSmooth, ih (fun m hm => hg m (by omega)) hinit,
        hg (period + k) (by omega)]

/-- The RSI value at index `i` only reads `close` at indices `≤ i`. -/
lemma rsi_congr (period : ℕ) {c1 c2 : ℕ → ℚ} (i : ℕ)
    (hag : ∀ j, j ≤ i → c1 j = c2 j) :
    compute_rsi_numba c1 period i = compute_rsi_numba c2 period i := by
  by_cases hlt : i < period + 1
  · simp only [compute_rsi_numba, if_pos hlt]
  · have hpi : period + 1 ≤ i := by omega
    have hgain : ∀ m, m < period + (i - period) → rsiGain c1 m = rsiGain c2 m := by
      intro m hm
      unfold rsiGain
      rw [hag m (by omega), hag (m + 1) (by omega)]
    have hloss : ∀ m, m < period + (i - period) → rsiLoss c1 m = rsiLoss c2 m := by
      intro m hm
      unfold rsiLoss
      rw [hag m (by omega), hag (m + 1) (by omega)]
    have hinitg : sliceSum (rsiGain c1) 0 period = sliceSum (rsiGain c2) 0 period :=
      sliceSum_congr 0 period (fun j _ hj => hgain j (by omega))
    have hinitl : sliceSum (rsiLoss c1) 0 period = sliceSum (rsiLoss c2) 0 period :=
      sliceSum_congr 0 period (fun j _ hj => hloss j (by omega))
    have hA : rsiSmooth period (rsiGain c1)
        (sliceSum (rsiGain c1) 0 period / (period : ℚ)) (i - period) =
        rsiSmooth period (rsiGain c2)
          (sliceSum (rsiGain c2) 0 period / (period : ℚ)) (i - period) :=
      rsiSmooth_congr period (i - period) hgain (by rw [hinitg])
    have hB : rsiSmooth period (rsiLoss c1)
        (sliceSum (rsiLoss c1) 0 period / (period : ℚ)) (i - period) =
        rsiSmooth period (rsiLoss c2)
          (sliceSum (rsiLoss c2) 0 period / (period : ℚ)) (i - period) :=
      rsiSmooth_congr period (i - period) hloss (by rw [hinitl])
    simp only [compute_rsi_numba, if_neg hlt, hA, hB]

/-- The VWAP distance at index `i` only reads the inputs at indices `≤ i`. -/
lemma vwap_congr (window : ℕ) {c1 v1 c2 v2 : ℕ → ℚ} (i : ℕ)
    (hag : ∀ j, j ≤ i → c1 j = c2 j ∧ v1 j = v2 j) :
    compute_vwap_distance_numba c1 v1 window i =
      compute_vwap_distance_numba c2 v2 window i := by
  by_cases hlt : i < window
  · simp only [compute_vwap_distance_numba, if_pos hlt]
  · have hs : i - window + window = i := by omega
    have hpv : sliceSum (fun j => c1 j * v1 j) (i - window) window =
        sliceSum (fun j => c2 j * v2 j) (i - window) window :=
      sliceSum_congr _ _ (fun j _ hj => by
        have := hag j (by omega)
        rw [this.1, this.2])
    have hv : sliceSum v1 (i - window) window = sliceSum v2 (i - window) window :=
      sliceSum_congr _ _ (fun j _ hj => (hag j (by omega)).2)
    simp only [compute_vwap_distance_numba, if_neg hlt, hpv, hv,
      hag i (le_refl i)]

/-- The Bollinger width at index `i` only reads `close` at indices `≤ i`. -/
lemma bollinger_congr (period : ℕ) (std_mult : ℚ) (sqrtF : ℚ → ℚ)
    {c1 c2 : ℕ → ℚ} (i : ℕ) (hag : ∀ j, j ≤ i → c1 j = c2 j) :
    compute_bollinger_width_numba c1 period std_mult sqrtF i =
      compute_bollinger_width_numba c2 period std_mult sqrtF i := by
  by_cases hlt : i < period
  · simp only [compute_bollinger_width_numba, if_pos hlt]
  · have hm : sliceSum c1 (i - period) period = sliceSum c2 (i - period) period :=
      sliceSum_congr _ _ (fun j _ hj => hag j (by omega))
    have hvr : sliceVar c1 (i - period) period = sliceVar c2 (i - period) period :=
      sliceVar_congr _ _ (fun j _ hj => hag j (by omega))
    simp only [compute_bollinger_width_numba, if_neg hlt, hm, hvr]

/-- C7: none of the four indicators looks ahead — for every index `i`, two
input series that agree on all indices `≤ i` yield the same ATR, RSI,
VWAP-distance and Bollinger-width value at index `i`, so altering (or
truncating away) bars beyond index `i` leaves entry `i` unchanged.
Periods/windows are required positive (a zero period would divide by zero in
the source). -/
theorem c7_indicators_no_lookahead (i period window : ℕ) (std_mult : ℚ)
    (sqrtF : ℚ → ℚ) (h1 l1 c1 v1 h2 l2 c2 v2 : ℕ → ℚ)
    (_hp : 0 < period) (_hw : 0 < window)
    (hag : ∀ j, j ≤ i → h1 j = h2 j ∧ l1 j = l2 j ∧ c1 j = c2 j ∧ v1 j = v2 j) :
    compute_atr_numba h1 l1 c1 period i = compute_atr_numba h2 l2 c2 period i ∧
    compute_rsi_numba c1 period i = compute_rsi_numba c2 period i ∧
    compute_vwap_distance_numba c1 v1 window i =
      compute_vwap_distance_numba c2 v2 window i ∧
    compute_bollinger_width_numba c1 window std_mult sqrtF i =
      compute_bollinger_width_numba c2 window std_mult sqrtF i :=
  ⟨atr_congr period i (fun j hj => ⟨(hag j hj).1, (hag j hj).2.1, (hag j hj).2.2.1⟩),
   rsi_congr period i (fun j hj => (hag j hj).2.2.1),
   vwap_congr window i (fun j hj => ⟨(hag j hj).2.2.1, (hag j hj).2.2.2⟩),
   bollinger_congr window std_mult sqrtF i (fun j hj => (hag j hj).2.2.1)⟩

/-- Concrete series used by witnesses: they agree with `hW2`/`lW2`/`cW2`/`vW2`
only up to index 2 and differ beyond it. -/
def hW : ℕ → ℚ := fun i => if i ≤ 2 then 2 * i + 6 else 99
def lW : ℕ → ℚ := fun i => if i ≤ 2 then i else 50
def cW : ℕ → ℚ := fun i => if i ≤ 2 then i + 3 else 77
def vW : ℕ → ℚ := fun i => if i ≤ 2 then i + 1 else 12
def hW2 : ℕ → ℚ := fun i => if i ≤ 2 then 2 * i + 6 else 10
def lW2 : ℕ → ℚ := fun i => if i ≤ 2 then i else 3
def cW2 : ℕ → ℚ := fun i => if i ≤ 2 then i + 3 else 4
def vW2 : ℕ → ℚ := fun i => if i ≤ 2 then i + 1 else 5

/-- Witness for C7 at index 2 with period = window = 2: the two input series
differ at every index above 2, yet every indicator agrees at index 2. -/
theorem c7_indicators_no_lookahead_witness :
    (0 < 2 ∧ (∀ j, j ≤ 2 → hW j = hW2 j ∧ lW j = lW2 j ∧ cW j = cW2 j ∧ vW j = vW2 j)) ∧
    (compute_atr_numba hW lW cW 2 2 = compute_atr_numba hW2 lW2 cW2 2 2 ∧
      compute_rsi_numba cW 2 2 = compute_rsi_numba cW2 2 2 ∧
      compute_vwap_distance_numba cW vW 2 2 = compute_vwap_distance_numba cW2 vW2 2 2 ∧
      compute_bollinger_width_numba cW 2 2 (fun q => q) 2 =
        compute_bollinger_width_numba cW2 2 2 (fun q => q) 2) :=
  ⟨⟨by decide, by
      intro j hj
      interval_cases j <;> norm_num [hW, hW2, lW, lW2, cW, cW2, vW, vW2]⟩,
    c7_indicators_no_lookahead 2 2 2 2 (fun q => q) hW lW cW vW hW2 lW2 cW2 vW2
      (by decide) (by decide) (by
        intro j hj
        interval_cases j <;> norm_num [hW, hW2, lW, lW2, cW, cW2, vW, vW2])⟩

/-- C8: the ATR algorithm — zero sentinel before the warm-up index `period`,
true range `max(high-low, |high-prev_close|, |low-prev_close|)` at every bar
`i ≥ 1`, seed value at index `period` equal to the simple mean of the first
`period` true-range values `tr[1..period]`, and exponential smoothing
`atr[i] = atr[i-1] + (1/period)·(tr[i] - atr[i-1])` afterwards. -/
theorem c8_atr_formula (high low close : ℕ → ℚ) (period : ℕ) (hp : 0 < period) :
    (∀ i, 1 ≤ i → trueRange high low close i =
      max (high i - low i) (max |high i - close (i - 1)| |low i - close (i - 1)|)) ∧
    (∀ i, i < period → compute_atr_numba high low close period i = 0) ∧
    compute_atr_numba high low close period period =
      (∑ j in Finset.Icc 1 period, trueRange high low close j) / period ∧
    (∀ i, period < i → compute_atr_numba high low close period i =
      compute_atr_numba high low close period (i - 1) +
        (1 / period) * (trueRange high low close i -
          compute_atr_numba high low close period (i - 1))) := by
  refine ⟨?_, ?_, ?_, ?_⟩
  · intro i hi
    obtain ⟨j, rfl⟩ : ∃ j, i = j + 1 := ⟨i - 1, by omega⟩
    simp only [trueRange, Nat.add_sub_cancel]
  · intro i hi
    cases i with
    | zero => rfl
    | succ j => simp only [compute_atr_numba, if_pos hi]
  · obtain ⟨k, rfl⟩ : ∃ k, period = k + 1 := ⟨period - 1, by omega⟩
    simp only [compute_atr_numba, if_neg (lt_irrefl (k + 1)), if_pos rfl,
      if_true, ite_true]
    rw [sliceSum_eq_Icc]
  · intro i hi
    obtain ⟨j, rfl⟩ : ∃ j, i = j + 1 := ⟨i - 1, by omega⟩
    simp only [compute_atr_numba, if_neg (by omega : ¬ j + 1 < period),
      if_neg (by omega : ¬ j + 1 = period), Nat.add_sub_cancel]

/-- Witness for C8 with period 2: the seed at index 2 is the mean of the two
true ranges and index 3 follows the smoothing recurrence. -/
theorem c8_atr_formula_witness :
    0 < 2 ∧
    compute_atr_numba hW lW cW 2 2 =
      (∑ j in Finset.Icc 1 2, trueRange hW lW cW j) / 2 ∧
    compute_atr_numba hW lW cW 2 3 =
      compute_atr_numba hW lW cW 2 2 +
        (1 / 2) * (trueRange hW lW cW 3 - compute_atr_numba hW lW cW 2 2) ∧
    compute_atr_numba hW lW cW 2 1 = 0 :=
  ⟨by decide, (c8_atr_formula hW lW cW 2 (by decide)).2.2.1,
    (c8_atr_formula hW lW cW 2 (by decide)).2.2.2 3 (by decide),
    (c8_atr_formula hW lW cW 2 (by decide)).2.1 1 (by decide)⟩

/-!
### Trade simulator (fast_backtest_engine.simulate_s2_strategy_numba)

The loop state of the Python function.  The source preallocates arrays of
`n // 10` trade slots and truncates to `trade_count` at the end; the embedding
keeps the four recorded columns as growing lists (an entry price / entry bar is
recorded the moment a trade opens, the exit price / exit bar the moment it
closes, exactly as the array writes happen in the source).
-/

structure SimState where
  entries : List ℚ
  exits : List ℚ
  entry_bars : List ℕ
  exit_bars : List ℕ
  in_trade : Bool
  entry_price : ℚ
  entry_bar : ℕ
  stop_loss : ℚ
  target : ℚ
  trade_direction : ℤ
  bars_in_trade : ℕ

/-- One iteration of the simulator loop at bar `i`: first the exit logic
(stop-loss / target / max-holding-period, direction dependent), then the entry
logic (S7 approval, ATR floor, then the long or the short entry condition).
An exit and a new entry may both fire at the same bar, in this order. -/
def simStep (close atr rsi vwap_dist : ℕ → ℚ)
    (vwap_threshold rsi_level stop_atr_mult target_atr_mult min_atr : ℚ)
    (max_bars_in_trade : ℕ) (s7_approved : ℕ → Bool)
    (st : SimState) (i : ℕ) : SimState :=
  let st1 :=
    if st.in_trade then
      let b := st.bars_in_trade + 1
      if (if st.trade_direction = 1 then
            close i ≤ st.stop_loss ∨ close i ≥ st.target ∨ b ≥ max_bars_in_trade
          else
            close i ≥ st.stop_loss ∨ close i ≤ st.target ∨ b ≥ max_bars_in_trade) then
        { st with
          bars_in_trade := b
          in_trade := false
          exits := st.exits ++ [close i]
          exit_bars := st.exit_bars ++ [i] }
      else { st with bars_in_trade := b }
    else st
  if st1.in_trade = false ∧ s7_approved i = true ∧ atr i ≥ min_atr then
    if vwap_dist i < -vwap_threshold ∧ rsi i < rsi_level then
      { st1 with
        entries := st1.entries ++ [close i]
        entry_bars := st1.entry_bars ++ [i]
        entry_price := close i
        entry_bar := i
        stop_loss := close i - stop_atr_mult * atr i
        target := close i + target_atr_mult * atr i
        trade_direction := 1
        in_trade := true
        bars_in_trade := 0 }
    else if vwap_dist i > vwap_threshold ∧ rsi i > 100 - rsi_level then
      { st1 with
        entries := st1.entries ++ [close i]
        entry_bars := st1.entry_bars ++ [i]
        entry_price := close i
        entry_bar := i
        stop_loss := close i + stop_atr_mult * atr i
        target := close i - target_atr_mult * atr i
        trade_direction := -1
        in_trade := true
        bars_in_trade := 0 }
    else st1
  else st1

/-- The initial loop state (empty trade lists, flat, all scalars zero). -/
def simInit : SimState := ⟨[], [], [], [], false, 0, 0, 0, 0, 0, 0⟩

/-- simulate_s2_strategy_numba on arrays of length `n`: runs the loop over
bars 100 … n-1 (the warm-up skip of the source) and force-closes any open
trade at the last bar's close.  Returns
`(entry_prices, exit_prices, entry_bars, exit_bars)`. -/
def simulate_s2_strategy_numba (n : ℕ) (close atr rsi vwap_dist : ℕ → ℚ)
    (vwap_threshold rsi_level stop_atr_mult target_atr_mult min_atr : ℚ)
    (max_bars_in_trade : ℕ) (s7_approved : ℕ → Bool) :
    List ℚ × List ℚ × List ℕ × List ℕ :=
  let st := (List.range' 100 (n - 100)).foldl
    (simStep close atr rsi vwap_dist vwap_threshold rsi_level stop_atr_mult
      target_atr_mult min_atr max_bars_in_trade s7_approved) simInit
  if st.in_trade then
    (st.entries, st.exits ++ [close (n - 1)], st.entry_bars, st.exit_bars ++ [n - 1])
  else
    (st.entries, st.exits, st.entry_bars, st.exit_bars)

/-- C9: the simulator is deterministic — it is a pure function of its inputs,
so two runs on pointwise-identical input arrays (closes, ATR, RSI,
VWAP-distance, S7 approvals) with identical parameters return identical trade
lists (entry prices, exit prices, entry bars, exit bars). -/
theorem c9_simulator_deterministic (n : ℕ)
    (close1 atr1 rsi1 vd1 close2 atr2 rsi2 vd2 : ℕ → ℚ)
    (vwap_threshold rsi_level stop_atr_mult target_atr_mult min_atr : ℚ)
    (max_bars_in_trade : ℕ) (s71 s72 : ℕ → Bool)
    (hc : ∀ i, close1 i = close2 i) (ha : ∀ i, atr1 i = atr2 i)
    (hr : ∀ i, rsi1 i = rsi2 i) (hv : ∀ i, vd1 i = vd2 i)
    (hs : ∀ i, s71 i = s72 i) :
    simulate_s2_strategy_numba n close1 atr1 rsi1 vd1 vwap_threshold rsi_level
      stop_atr_mult target_atr_mult min_atr max_bars_in_trade s71 =
    simulate_s2_strategy_numba n close2 atr2 rsi2 vd2 vwap_threshold rsi_level
      stop_atr_mult target_atr_mult min_atr max_bars_in_trade s72 := by
  rw [funext hc, funext ha, funext hr, funext hv, funext hs]

/-- Witness for C9: a run on 101 constant bars repeated twice gives the same
output. -/
theorem c9_simulator_deterministic_witness :
    simulate_s2_strategy_numba 101 (fun _ => 100) (fun _ => 1) (fun _ => 10)
      (fun _ => -1) (15/100) 30 2 (7/2) (1/4) 45 (fun _ => true) =
    simulate_s2_strategy_numba 101 (fun _ => 100) (fun _ => 1) (fun _ => 10)
      (fun _ => -1) (15/100) 30 2 (7/2) (1/4) 45 (fun _ => true) :=
  c9_simulator_deterministic 101 (fun _ => 100) (fun _ => 1) (fun _ => 10)
    (fun _ => -1) (fun _ => 100) (fun _ => 1) (fun _ => 10) (fun _ => -1)
    (15/100) 30 2 (7/2) (1/4) 45 (fun _ => true) (fun _ => true)
    (fun _ => rfl) (fun _ => rfl) (fun _ => rfl) (fun _ => rfl) (fun _ => rfl)

/-- Close series for the short-trade run: constant 100 with a drop to 90 at
bar 101. -/
def closeDrop : ℕ → ℚ := fun i => if i = 101 then 90 else 100

/-- RSI series for the short-trade run: overbought (80) only at bar 100. -/
def rsiSpike : ℕ → ℚ := fun i => if i = 100 then 80 else 50

/-- Per-trade returns exactly as backtest_s2 builds them from the simulator's
entry/exit price arrays: `(exit - entry) / entry` for each trade, with no
direction adjustment. -/
def trade_returns (entries exits : List ℚ) : List ℚ :=
  List.zipWith (fun entry exitv => (exitv - entry) / entry) entries exits

/-- C2: the simulator never consults the `is_maintenance` flag (its inputs do
not even include the timestamps), so a bar inside the 17:00–18:00 maintenance
break can trigger an entry and can lie inside a trade's holding window.  Here
every bar is stamped Monday 17:30 ET — `cme_trading_day` flags it as
maintenance — yet the run enters (and holds) a trade at bar 100.  This
contradicts the repository's own stated invariant
(session_grouper.validate_no_maintenance_crossings: "Episodes must not cross
maintenance window"), which is defined but never invoked on the simulator's
input. -/
theorem c2_maintenance_bar_triggers_entry :
    (cme_trading_day ⟨0, 1050⟩).2.2 = true ∧
    simulate_s2_strategy_numba 101 (fun _ => 100) (fun _ => 1) (fun _ => 10)
      (fun _ => -1) (15/100) 30 2 (7/2) (1/4) 45 (fun _ => true) =
      ([100], [100], [100], [100]) := by
  constructor
  · decide
  · norm_num [simulate_s2_strategy_numba, simStep, simInit, List.range',
      List.foldl]

/-- C3 counterexample: a run whose only trade is a *short* entered at bar 100
(the short branch fires: vwap_dist = 1 > 0.15 and rsi = 80 > 100 - 30) and
exited at 90 < 100, i.e. a profitable short; yet the return backtest_s2 feeds
into the metrics is (90-100)/100 = -1/10 < 0 — the claim's direction-adjusted
sign convention is not implemented. -/
theorem c3_profitable_short_gets_negative_return :
    simulate_s2_strategy_numba 102 closeDrop (fun _ => 1) rsiSpike
      (fun _ => 1) (15/100) 30 2 (7/2) (1/4) 45 (fun _ => true) =
      ([100], [90], [100], [101]) ∧
    ((1 : ℚ) > 15/100 ∧ (80 : ℚ) > 100 - 30) ∧
    (90 : ℚ) < 100 ∧
    trade_returns [100] [90] = [-1/10] ∧
    (-1/10 : ℚ) < 0 := by
  refine ⟨?_, by norm_num, by norm_num, ?_, by norm_num⟩
  · norm_num [simulate_s2_strategy_numba, simStep, simInit, closeDrop,
      rsiSpike, List.range', List.foldl]
  · norm_num [trade_returns]

/-- C3 amended: the per-trade return backtest_s2 feeds into the metrics is
always the long-convention `(exit - entry) / entry`, with no direction factor;
consequently any trade whose exit is below its (positive) entry contributes a
*negative* return — even when that trade was a short and therefore profitable.
-/
theorem c3_amended_long_convention_returns (entries exits : List ℚ) (i : ℕ)
    (h1 : i < entries.length) (h2 : i < exits.length)
    (hpos : 0 < entries[i]) (hlt : exits[i] < entries[i]) :
    ∃ h : i < (trade_returns entries exits).length,
      (trade_returns entries exits).get ⟨i, h⟩ =
        (exits[i] - entries[i]) / entries[i] ∧
      (trade_returns entries exits).get ⟨i, h⟩ < 0 := by
  have hh : i < (trade_returns entries exits).length := by
    simp only [trade_returns, List.length_zipWith]
    omega
  have hg : (trade_returns entries exits).get ⟨i, hh⟩ =
      (exits[i] - entries[i]) / entries[i] := by
    simp only [trade_returns, List.get_eq_getElem, List.getElem_zipWith]
  exact ⟨hh, hg, by
    rw [hg]
    exact div_neg_of_neg_of_pos (by linarith) hpos⟩

/-- Witness for C3's amended statement: the single trade entered at 100 and
exited at 90 yields return -1/10 < 0. -/
theorem c3_amended_long_convention_returns_witness :
    ((0 : ℕ) < ([100] : List ℚ).length ∧ (90 : ℚ) < 100) ∧
    ∃ h : 0 < (trade_returns [100] [90]).length,
      (trade_returns [100] [90]).get ⟨0, h⟩ =
        (([90] : List ℚ)[0] - ([100] : List ℚ)[0]) / ([100] : List ℚ)[0] ∧
      (trade_returns [100] [90]).get ⟨0, h⟩ < 0 :=
  ⟨⟨by norm_num, by norm_num⟩,
    c3_amended_long_convention_returns [100] [90] 0 (by norm_num) (by norm_num)
      (by norm_num) (by norm_num)⟩

/-!
### backtest_s2 metrics (fast_backtest_engine.backtest_s2)
-/

/-- Mean of a list (`np.mean`); 0/0 = 0 covers only branches the source
guards against anyway. -/
def listMean (xs : List ℚ) : ℚ := xs.sum / xs.length

/-- Population variance of a list — the square of `np.std`. -/
def listVarQ (xs : List ℚ) : ℚ :=
  ((xs.map (fun x => (x - listMean xs) ^ 2)).sum) / xs.length

/-- The cumulative sum `np.cumsum` with running accumulator `acc`. -/
def cumsumFrom (acc : ℚ) : List ℚ → List ℚ
  | [] => []
  | x :: xs => (acc + x) :: cumsumFrom (acc + x) xs

/-- Tail of `np.maximum.accumulate` with current maximum `m`. -/
def runMaxFrom (m : ℚ) : List ℚ → List ℚ
  | [] => []
  | x :: xs => max m x :: runMaxFrom (max m x) xs

/-- The running maximum `np.maximum.accumulate`. -/
def runningMax : List ℚ → List ℚ
  | [] => []
  | x :: xs => x :: runMaxFrom x xs

/-- The maximum `np.max` of a nonempty list (0 for the empty list, a case the source
guards with a length check). -/
def listMaxQ : List ℚ → ℚ
  | [] => 0
  | x :: xs => xs.foldl max x

/-- Strategy parameters of backtest_s2; the default field values are the
`params.get(..., default)` fall-backs of the source. -/
structure SParams where
  vwap_threshold : ℚ := 15/100
  rsi_level : ℚ := 30
  stop_atr_mult : ℚ := 2
  target_atr_mult : ℚ := 7/2
  min_atr : ℚ := 1/4
  max_bars_in_trade : ℕ := 45

/-- The performance-metrics record backtest_s2 returns. -/
structure BTMetrics where
  total_trades : ℕ
  total_return : ℚ
  sharpe_ratio : ℚ
  win_rate : ℚ
  avg_r_multiple : ℚ
  max_drawdown : ℚ
  deriving DecidableEq, Repr

/-- The simulator call made by backtest_s2: indicators computed with the fixed
periods 14/14/20, S7 gate defaulting to all-approved when absent. -/
def backtest_s2_trades (n : ℕ) (high low close volume : ℕ → ℚ)
    (params : SParams) (s7_gate : Option (ℕ → Bool)) :
    List ℚ × List ℚ × List ℕ × List ℕ :=
  simulate_s2_strategy_numba n close
    (compute_atr_numba high low close 14)
    (compute_rsi_numba close 14)
    (compute_vwap_distance_numba close volume 20)
    params.vwap_threshold params.rsi_level params.stop_atr_mult
    params.target_atr_mult params.min_atr params.max_bars_in_trade
    (s7_gate.getD (fun _ => true))

/-- backtest_s2: runs the simulation and aggregates the performance metrics,
returning the all-zero record when no trades were produced. -/
def backtest_s2 (n : ℕ) (high low close volume : ℕ → ℚ) (params : SParams)
    (s7_gate : Option (ℕ → Bool)) (sqrtF : ℚ → ℚ) : BTMetrics :=
  let r := backtest_s2_trades n high low close volume params s7_gate
  let entries := r.1
  let exits := r.2.1
  if entries.length = 0 then ⟨0, 0, 0, 0, 0, 0⟩
  else
    let returns := trade_returns entries exits
    let total_return := returns.sum
    let win_rate :=
      if 0 < returns.length then
        ((returns.filter (fun x => decide (0 < x))).length : ℚ) / returns.length
      else 0
    let sharpe_ratio :=
      if 1 < returns.length ∧ 0 < sqrtF (listVarQ returns) then
        listMean returns / sqrtF (listVarQ returns) * sqrtF 252
      else 0
    let wins := returns.filter (fun x => decide (0 < x))
    let losses := returns.filter (fun x => decide (x < 0))
    let avg_r_multiple :=
      if 0 < wins.length ∧ 0 < losses.length then
        listMean wins / |listMean losses|
      else 0
    let cumulative := cumsumFrom 0 returns
    let running_max := runningMax cumulative
    let drawdown := List.zipWith (fun a b => a - b) running_max cumulative
    let max_drawdown := if 0 < drawdown.length then listMaxQ drawdown else 0
    ⟨entries.length, total_return, sharpe_ratio, win_rate, avg_r_multiple,
      max_drawdown⟩

/-- C6: backtest_s2's guarded metrics.  (a) A run whose simulation produces no
trades returns the record with total_trades, total_return, sharpe_ratio,
win_rate, avg_r_multiple and max_drawdown all exactly 0 (ℚ has no NaN or
infinities, and every division is total).  (b) sharpe_ratio is 0 whenever
there are fewer than 2 per-trade returns or the return standard deviation is
0.  (c) avg_r_multiple is 0 whenever the winning or the losing group is
empty. -/
theorem c6_zero_trades_zero_metrics (n : ℕ) (high low close volume : ℕ → ℚ)
    (params : SParams) (s7_gate : Option (ℕ → Bool)) (sqrtF : ℚ → ℚ) :
    ((backtest_s2_trades n high low close volume params s7_gate).1 = [] →
      backtest_s2 n high low close volume params s7_gate sqrtF =
        ⟨0, 0, 0, 0, 0, 0⟩) ∧
    (((trade_returns (backtest_s2_trades n high low close volume params s7_gate).1
        (backtest_s2_trades n high low close volume params s7_gate).2.1).length < 2 ∨
      sqrtF (listVarQ (trade_returns
        (backtest_s2_trades n high low close volume params s7_gate).1
        (backtest_s2_trades n high low close volume params s7_gate).2.1)) = 0) →
      (backtest_s2 n high low close volume params s7_gate sqrtF).sharpe_ratio = 0) ∧
    (((trade_returns (backtest_s2_trades n high low close volume params s7_gate).1
        (backtest_s2_trades n high low close volume params s7_gate).2.1).filter
          (fun x => decide (0 < x)) = [] ∨
      (trade_returns (backtest_s2_trades n high low close volume params s7_gate).1
        (backtest_s2_trades n high low close volume params s7_gate).2.1).filter
          (fun x => decide (x < 0)) = []) →
      (backtest_s2 n high low close volume params s7_gate sqrtF).avg_r_multiple = 0) := by
  refine ⟨?_, ?_, ?_⟩
  · intro h
    simp only [backtest_s2, h, List.length_nil, if_pos rfl, if_true, ite_true]
  · intro h
    by_cases he :
        (backtest_s2_trades n high low close volume params s7_gate).1.length = 0
    · simp only [backtest_s2, if_pos he]
    · simp only [backtest_s2, if_neg he]
      rw [if_neg]
      rintro ⟨h1, h2⟩
      rcases h with h | h
      · omega
      · rw [h] at h2
        exact lt_irrefl 0 h2
  · intro h
    by_cases he :
        (backtest_s2_trades n high low close volume params s7_gate).1.length = 0
    · simp only [backtest_s2, if_pos he]
    · simp only [backtest_s2, if_neg he]
      rw [if_neg]
      rintro ⟨h1, h2⟩
      rcases h with h | h
      · rw [h] at h1
        exact lt_irrefl 0 h1
      · rw [h] at h2
        exact lt_irrefl 0 h2

/-- Witness for C6: 20 bars of flat data — the loop (which starts at bar 100)
never runs, the simulation yields no trades, and every metric is exactly 0. -/
theorem c6_zero_trades_zero_metrics_witness :
    (backtest_s2_trades 20 (fun _ => 10) (fun _ => 9) (fun _ => 9) (fun _ => 1)
      {} none).1 = [] ∧
    backtest_s2 20 (fun _ => 10) (fun _ => 9) (fun _ => 9) (fun _ => 1)
      {} none (fun _ => 0) = ⟨0, 0, 0, 0, 0, 0⟩ :=
  ⟨by norm_num [backtest_s2_trades, simulate_s2_strategy_numba, simInit,
      List.range', List.foldl],
    (c6_zero_trades_zero_metrics 20 (fun _ => 10) (fun _ => 9) (fun _ => 9)
      (fun _ => 1) {} none (fun _ => 0)).1
      (by norm_num [backtest_s2_trades, simulate_s2_strategy_numba, simInit,
        List.range', List.foldl])⟩

/-!
### Gate 1 — parameter_optimization_validator.py

Trades returned by the injected backtest function carry a pnl column and a
win column (the source reads `trades_df['pnl']` and `trades_df['win']`).
The backtest callback may fail (the source wraps the two calls in
try/except), so it returns an `Except`.  The randomized bootstrap test is
modelled by the injected `bootP` returning the p-value it would produce.
-/

/-- A row of the trades DataFrame consumed by calculate_metrics. -/
structure GTrade where
  pnl : ℚ
  win : Bool

/-- The metrics dictionary calculate_metrics returns. -/
structure CMetrics where
  num_trades : ℕ
  win_rate : ℚ
  sharpe_ratio : ℚ
  mean_pnl : ℚ
  std_pnl : ℚ

/-- Validation thresholds (module-level constants of the source). -/
def MIN_TRADES_THRESHOLD : ℕ := 200
def WIN_RATE_IMPROVEMENT_THRESHOLD : ℚ := 2/100
def SHARPE_IMPROVEMENT_THRESHOLD : ℚ := 10/100
def BOOTSTRAP_P_VALUE_THRESHOLD : ℚ := 5/100

/-- calculate_metrics: zero record on an empty trades frame; otherwise count,
win fraction, mean/std of pnl and the annualized Sharpe ratio (0 when the
standard deviation is not positive). -/
def calculate_metrics (sqrtF : ℚ → ℚ) (trades : List GTrade) : CMetrics :=
  if trades.length = 0 then ⟨0, 0, 0, 0, 0⟩
  else
    let win_rate := ((trades.filter (fun t => t.win)).length : ℚ) / trades.length
    let pnl_values := trades.map (fun t => t.pnl)
    let mean_pnl := listMean pnl_values
    let std_pnl := sqrtF (listVarQ pnl_values)
    let sharpe_ratio := if 0 < std_pnl then mean_pnl / std_pnl * sqrtF 252 else 0
    ⟨trades.length, win_rate, sharpe_ratio, mean_pnl, std_pnl⟩

/-- The per-strategy safe-bounds table of
parameter_optimization_validator.validate_parameter_bounds (insertion order
preserved). -/
def gateBounds (strategy : String) : Option (List (String × ℚ × ℚ)) :=
  if strategy = "S2" then
    some [("vwap_threshold", 5/100, 30/100), ("rsi_level", 20, 40),
      ("stop_atr_mult", 1, 4), ("target_atr_mult", 2, 6), ("min_atr", 20/100, 50/100)]
  else if strategy = "S3" then
    some [("width_rank_enter", 5/100, 40/100), ("min_squeeze_bars", 3, 15),
      ("stop_atr_mult", 1/2, 3), ("target_r1", 1, 4), ("target_r2", 2, 6)]
  else if strategy = "S6" then
    some [("min_atr", 20/100, 50/100), ("stop_atr_mult", 1, 4), ("target_atr_mult", 2, 6)]
  else if strategy = "S11" then
    some [("min_atr", 20/100, 50/100), ("stop_atr_mult", 1, 4), ("target_atr_mult", 2, 6)]
  else none

/-- The scan of the bounds table: the first parameter present in `params`
whose value falls outside its [min, max] range produces the error message
(numeric rendering abbreviated to ℚ's toString); parameters absent from
`params` are skipped. -/
def boundsScan (params : List (String × ℚ)) : List (String × ℚ × ℚ) → Option String
  | [] => none
  | (param_name, min_val, max_val) :: rest =>
    match params.lookup param_name with
    | some value =>
        if min_val ≤ value ∧ value ≤ max_val then boundsScan params rest
        else some ("Parameter " ++ param_name ++ "=" ++ toString value ++
          " outside safe bounds [" ++ toString min_val ++ ", " ++ toString max_val ++ "]")
    | none => boundsScan params rest

/-- Gate 1's validate_parameter_bounds: `(is_valid, error_message)`; a
strategy with no bounds table passes vacuously.  Note: this function checks
*only* per-parameter [min, max] ranges — it has no cross-field constraint. -/
def validate_parameter_bounds (params : List (String × ℚ)) (strategy : String) :
    Bool × String :=
  match gateBounds strategy with
  | none => (true, "")
  | some tbl =>
    match boundsScan params tbl with
    | none => (true, "")
    | some msg => (false, msg)

/-- The S2 safety-bounds table of parameter_validator.py (a *different* module
from the gate's, with wider rsi/min_atr ranges and a max_bars bound). -/
def S2_SAFETY_BOUNDS : List (String × ℚ × ℚ) :=
  [("vwap_threshold", 5/100, 30/100), ("rsi_level", 20, 80),
    ("stop_atr_mult", 1, 4), ("target_atr_mult", 2, 6),
    ("min_atr", 15/100, 60/100), ("max_bars_in_trade", 20, 100)]

/-- parameter_validator.validate_parameter_bounds: collects all range errors
over S2_SAFETY_BOUNDS and additionally enforces the cross-field constraint
target_atr_mult > stop_atr_mult + 0.5.  Returns `(errors empty?, errors)`.
This is the only place the cross-field constraint is checked, and the gate
does not call this module. -/
def pv_validate_parameter_bounds (params : List (String × ℚ)) (strategy : String) :
    Bool × List String :=
  if strategy = "S2" then
    let range_errors := S2_SAFETY_BOUNDS.foldr (fun entry acc =>
      match params.lookup entry.1 with
      | some value =>
          if value < entry.2.1 ∨ entry.2.2 < value then
            (entry.1 ++ "=" ++ toString value ++ " outside safety bounds [" ++
              toString entry.2.1 ++ ", " ++ toString entry.2.2 ++ "]") :: acc
          else acc
      | none => acc) []
    let cross_errors :=
      match params.lookup "target_atr_mult", params.lookup "stop_atr_mult" with
      | some tv, some sv =>
          if tv ≤ sv + 1/2 then
            ["target_atr_mult (" ++ toString tv ++ ") must exceed stop_atr_mult (" ++
              toString sv ++ ") by at least 0.5"]
          else []
      | _, _ => []
    let errors := range_errors ++ cross_errors
    (errors.length = 0, errors)
  else (true, [])

/-- The sample-size rejection reason of the gate (check 3), verbatim from the
source's f-string. -/
def sampleSizeReason (num_trades : ℕ) : String :=
  "Insufficient trades: " ++ toString num_trades ++ " < " ++
    toString MIN_TRADES_THRESHOLD ++
    " (sample size too small for statistical reliability)"

/-- The metrics dictionary returned alongside the gate verdict; its four
shapes mirror the four dict payloads the source returns. -/
inductive GateMetrics where
  | empty : GateMetrics
  | pair (baseline candidate : CMetrics) : GateMetrics
  | pairP (baseline candidate : CMetrics) (p_value : ℚ) : GateMetrics
  | full (baseline candidate : CMetrics)
      (win_rate_improvement sharpe_improvement p_value : ℚ) : GateMetrics

/-- Gate 1 (validate_optimized_parameters_gate): bounds check, two holdout
backtests, sample-size check, win-rate and Sharpe improvement checks, then
the bootstrap significance check; the first failure returns immediately with
`passed = False` and its reason. -/
def validate_optimized_parameters_gate {H : Type} (sqrtF : ℚ → ℚ)
    (bootP : List ℚ → List ℚ → ℚ)
    (baseline_params candidate_params : List (String × ℚ))
    (holdout_df : H) (strategy : String)
    (backtest_func : H → List (String × ℚ) → String → Except String (List GTrade)) :
    Bool × GateMetrics × String :=
  let bres := validate_parameter_bounds candidate_params strategy
  if bres.1 = false then
    (false, GateMetrics.empty, "Parameter bounds check FAILED: " ++ bres.2)
  else
    match backtest_func holdout_df baseline_params strategy with
    | Except.error e => (false, GateMetrics.empty, "Backtest execution FAILED: " ++ e)
    | Except.ok baseline_trades =>
      match backtest_func holdout_df candidate_params strategy with
      | Except.error e => (false, GateMetrics.empty, "Backtest execution FAILED: " ++ e)
      | Except.ok candidate_trades =>
        let baseline_metrics := calculate_metrics sqrtF baseline_trades
        let candidate_metrics := calculate_metrics sqrtF candidate_trades
        if candidate_metrics.num_trades < MIN_TRADES_THRESHOLD then
          (false, GateMetrics.pair baseline_metrics candidate_metrics,
            sampleSizeReason candidate_metrics.num_trades)
        else
          let win_rate_diff := candidate_metrics.win_rate - baseline_metrics.win_rate
          if win_rate_diff < WIN_RATE_IMPROVEMENT_THRESHOLD then
            (false, GateMetrics.pair baseline_metrics candidate_metrics,
              "Win rate improvement insufficient: " ++ toString win_rate_diff ++
                " < " ++ toString WIN_RATE_IMPROVEMENT_THRESHOLD)
          else
            let sharpe_diff :=
              candidate_metrics.sharpe_ratio - baseline_metrics.sharpe_ratio
            if sharpe_diff < SHARPE_IMPROVEMENT_THRESHOLD then
              (false, GateMetrics.pair baseline_metrics candidate_metrics,
                "Sharpe ratio improvement insufficient: " ++ toString sharpe_diff ++
                  " < " ++ toString SHARPE_IMPROVEMENT_THRESHOLD)
            else
              let baseline_pnl :=
                if 0 < baseline_trades.length then baseline_trades.map (fun t => t.pnl)
                else []
              let candidate_pnl :=
                if 0 < candidate_trades.length then candidate_trades.map (fun t => t.pnl)
                else []
              let p_value := bootP baseline_pnl candidate_pnl
              if BOOTSTRAP_P_VALUE_THRESHOLD ≤ p_value then
                (false, GateMetrics.pairP baseline_metrics candidate_metrics p_value,
                  "Statistical significance test FAILED: p-value=" ++
                    toString p_value ++ " (improvement not statistically significant)")
              else
                (true, GateMetrics.full baseline_metrics candidate_metrics
                  win_rate_diff sharpe_diff p_value,
                  "All validation checks passed")

/-- Character-sequence prefix test: `startsWithSeq hay needle` is true when
`needle` is an initial segment of `hay`. -/
def startsWithSeq : List Char → List Char → Bool
  | _, [] => true
  | [], _ :: _ => false
  | h :: t, nh :: nt => h = nh && startsWithSeq t nt

/-- Substring test on character sequences: true when `needle` occurs
contiguously inside `hay`. -/
def seqContains : List Char → List Char → Bool
  | [], needle => startsWithSeq [] needle
  | h :: t, needle => startsWithSeq (h :: t) needle || seqContains t needle

/-- A needle occurring in the right part of an append occurs in the whole. -/
lemma seqContains_append_right (a : List Char) {b needle : List Char}
    (h : seqContains b needle = true) : seqContains (a ++ b) needle = true := by
  induction a with
  | nil => exact h
  | cons x xs ih =>
      simp only [List.cons_append, seqContains, List.append_eq, ih, Bool.or_true]

/-- A sequence is a prefix of itself followed by anything. -/
lemma startsWithSeq_append_self (rest : List Char) :
    ∀ needle : List Char, startsWithSeq (needle ++ rest) needle = true := by
  intro needle
  induction needle with
  | nil => simp [startsWithSeq]
  | cons x xs ih => simp [startsWithSeq, List.cons_append, ih]

/-- A needle occurs at the front of itself followed by anything. -/
lemma seqContains_self_append (needle rest : List Char) :
    seqContains (needle ++ rest) needle = true := by
  cases needle with
  | nil => cases rest <;> simp [seqContains, startsWithSeq]
  | cons x xs =>
      have hs := startsWithSeq_append_self rest (x :: xs)
      simp only [List.cons_append] at hs ⊢
      simp [seqContains, hs]

/-- String append concatenates the underlying character data. -/
lemma string_data_append (x y : String) : (x ++ y).data = x.data ++ y.data := rfl

/-- The sample-size reason names the candidate's trade count, the constant
200, and the phrase "sample size": its data decomposes around the rendered
count. -/
lemma sampleSizeReason_data (k : ℕ) :
    (sampleSizeReason k).data =
      "Insufficient trades: ".data ++ ((toString k).data ++
        (" < ".data ++ ("200".data ++
          " (sample size too small for statistical reliability)".data))) := by
  simp only [sampleSizeReason, string_data_append, List.append_assoc]
  rfl

/-- The sample-size reason mentions "200" and "sample size", whatever the
trade count. -/
lemma sampleSizeReason_mentions (k : ℕ) :
    seqContains (sampleSizeReason k).data "200".data = true ∧
    seqContains (sampleSizeReason k).data "sample size".data = true := by
  rw [sampleSizeReason_data]
  constructor
  · refine seqContains_append_right _ (seqContains_append_right _
      (seqContains_append_right _ ?_))
    exact seqContains_self_append "200".data
      " (sample size too small for statistical reliability)".data
  · refine seqContains_append_right _ (seqContains_append_right _
      (seqContains_append_right _ (seqContains_append_right _ ?_)))
    decide

/-- C4: whenever the candidate's holdout backtest yields fewer than 200
trades, the gate rejects with `passed = False` and the sample-size reason —
which names the 200 minimum ("200" occurs in it) and identifies the check
("sample size" occurs in it) — regardless of the bootstrap function and even
when the win-rate and Sharpe improvements both meet their thresholds: the
improvement and bootstrap checks are never reached (the verdict is the same
for every `bootP`). -/
theorem c4_sample_size_gate {H : Type} (sqrtF : ℚ → ℚ)
    (bootP : List ℚ → List ℚ → ℚ)
    (baseline_params candidate_params : List (String × ℚ)) (holdout_df : H)
    (strategy : String)
    (backtest_func : H → List (String × ℚ) → String → Except String (List GTrade))
    (baseline_trades candidate_trades : List GTrade)
    (hbounds : (validate_parameter_bounds candidate_params strategy).1 = true)
    (hbase : backtest_func holdout_df baseline_params strategy =
      Except.ok baseline_trades)
    (hcand : backtest_func holdout_df candidate_params strategy =
      Except.ok candidate_trades)
    (hfew : (calculate_metrics sqrtF candidate_trades).num_trades <
      MIN_TRADES_THRESHOLD)
    (_hwr : WIN_RATE_IMPROVEMENT_THRESHOLD ≤
      (calculate_metrics sqrtF candidate_trades).win_rate -
        (calculate_metrics sqrtF baseline_trades).win_rate)
    (_hsh : SHARPE_IMPROVEMENT_THRESHOLD ≤
      (calculate_metrics sqrtF candidate_trades).sharpe_ratio -
        (calculate_metrics sqrtF baseline_trades).sharpe_ratio) :
    validate_optimized_parameters_gate sqrtF bootP baseline_params
      candidate_params holdout_df strategy backtest_func =
      (false,
        GateMetrics.pair (calculate_metrics sqrtF baseline_trades)
          (calculate_metrics sqrtF candidate_trades),
        sampleSizeReason (calculate_metrics sqrtF candidate_trades).num_trades) ∧
    seqContains
      (sampleSizeReason (calculate_metrics sqrtF candidate_trades).num_trades).data
      "200".data = true ∧
    seqContains
      (sampleSizeReason (calculate_metrics sqrtF candidate_trades).num_trades).data
      "sample size".data = true := by
  refine ⟨?_, (sampleSizeReason_mentions _).1, (sampleSizeReason_mentions _).2⟩
  rw [validate_optimized_parameters_gate]
  rw [hbounds]
  simp only [Bool.true_eq_false, if_neg, ite_false, if_false]
  rw [hbase, hcand]
  simp only [if_pos hfew]

/-- Concrete objects for the gate witnesses: an abstract square root that
returns 16 everywhere, a bootstrap returning p-value 0, a baseline run of two
losing trades and a candidate run of three winning trades (3 < 200), and a
backtest callback dispatching on which parameter set it receives. -/
def sqrtF16 : ℚ → ℚ := fun _ => 16
def bootP0 : List ℚ → List ℚ → ℚ := fun _ _ => 0
def baseT_c4 : List GTrade := [⟨-2, false⟩, ⟨0, false⟩]
def candT_c4 : List GTrade := [⟨1, true⟩, ⟨1, true⟩, ⟨1, true⟩]
def candP_c4 : List (String × ℚ) := [("vwap_threshold", 3/20)]
def btf_c4 : Unit → List (String × ℚ) → String → Except String (List GTrade) :=
  fun _ p _ => if p.length = 0 then Except.ok baseT_c4 else Except.ok candT_c4

/-- Witness for C4: the candidate produces 3 trades (< 200) while its win-rate
improvement (1 ≥ 0.02) and Sharpe improvement (2 ≥ 0.10) both clear their
thresholds, and the gate still rejects with the sample-size reason. -/
theorem c4_sample_size_gate_witness :
    ((calculate_metrics sqrtF16 candT_c4).num_trades < MIN_TRADES_THRESHOLD ∧
      WIN_RATE_IMPROVEMENT_THRESHOLD ≤
        (calculate_metrics sqrtF16 candT_c4).win_rate -
          (calculate_metrics sqrtF16 baseT_c4).win_rate ∧
      SHARPE_IMPROVEMENT_THRESHOLD ≤
        (calculate_metrics sqrtF16 candT_c4).sharpe_ratio -
          (calculate_metrics sqrtF16 baseT_c4).sharpe_ratio) ∧
    (validate_optimized_parameters_gate sqrtF16 bootP0 [] candP_c4 () "S2"
        btf_c4 =
      (false,
        GateMetrics.pair (calculate_metrics sqrtF16 baseT_c4)
          (calculate_metrics sqrtF16 candT_c4),
        sampleSizeReason (calculate_metrics sqrtF16 candT_c4).num_trades) ∧
      seqContains
        (sampleSizeReason (calculate_metrics sqrtF16 candT_c4).num_trades).data
        "200".data = true ∧
      seqContains
        (sampleSizeReason (calculate_metrics sqrtF16 candT_c4).num_trades).data
        "sample size".data = true) := by
  have hfew : (calculate_metrics sqrtF16 candT_c4).num_trades <
      MIN_TRADES_THRESHOLD := by
    norm_num [calculate_metrics, candT_c4, MIN_TRADES_THRESHOLD]
  have hwr : WIN_RATE_IMPROVEMENT_THRESHOLD ≤
      (calculate_metrics sqrtF16 candT_c4).win_rate -
        (calculate_metrics sqrtF16 baseT_c4).win_rate := by
    norm_num [calculate_metrics, candT_c4, baseT_c4, List.filter,
      WIN_RATE_IMPROVEMENT_THRESHOLD]
  have hsh : SHARPE_IMPROVEMENT_THRESHOLD ≤
      (calculate_metrics sqrtF16 candT_c4).sharpe_ratio -
        (calculate_metrics sqrtF16 baseT_c4).sharpe_ratio := by
    norm_num [calculate_metrics, candT_c4, baseT_c4, listMean, listVarQ,
      sqrtF16, SHARPE_IMPROVEMENT_THRESHOLD]
  have hbounds : (validate_parameter_bounds candP_c4 "S2").1 = true := by
    norm_num [validate_parameter_bounds, gateBounds, boundsScan, candP_c4,
      List.lookup]
    simp
  exact ⟨⟨hfew, hwr, hsh⟩,
    c4_sample_size_gate sqrtF16 bootP0 [] candP_c4 () "S2" btf_c4 baseT_c4
      candT_c4 hbounds rfl rfl hfew hwr hsh⟩

/-- If some table entry's parameter is present and out of range, the scan
reports a failure (the first one in table order). -/
lemma boundsScan_fails {params : List (String × ℚ)} :
    ∀ tbl : List (String × ℚ × ℚ),
      (∃ e ∈ tbl, ∃ v, params.lookup e.1 = some v ∧
        ¬(e.2.1 ≤ v ∧ v ≤ e.2.2)) →
      ∃ msg, boundsScan params tbl = some msg := by
  intro tbl
  induction tbl with
  | nil =>
      rintro ⟨e, he, -⟩
      exact absurd he (List.not_mem_nil e)
  | cons hd rest ih =>
      obtain ⟨nm, lo, hi⟩ := hd
      rintro ⟨e, he, v, hv, hout⟩
      cases hl : params.lookup nm with
      | none =>
          simp only [boundsScan, hl]
          rcases List.mem_cons.mp he with rfl | he2
          · rw [hl] at hv
            exact absurd hv (by simp)
          · exact ih ⟨e, he2, v, hv, hout⟩
      | some w =>
          simp only [boundsScan, hl]
          by_cases hw : lo ≤ w ∧ w ≤ hi
          · rw [if_pos hw]
            rcases List.mem_cons.mp he with rfl | he2
            · rw [hl] at hv
              injection hv with hveq
              subst hveq
              exact absurd hw hout
            · exact ih ⟨e, he2, v, hv, hout⟩
          · rw [if_neg hw]
            exact ⟨_, rfl⟩

/-- C5 amended: the gate's first check does reject any candidate carrying a
parameter outside its configured [min, max] bounds, with `passed = False`, an
empty metrics payload and a bounds-failure reason, and the verdict is the same
for *every* backtest function (no backtest is consulted).  What the claim gets
wrong is the cross-field constraint: the gate's bounds check has no
target/stop constraint at all (see the counterexample), that rule living only
in the separate parameter_validator module, which the gate never calls. -/
theorem c5_out_of_bounds_rejected_before_backtest {H : Type} (sqrtF : ℚ → ℚ)
    (bootP : List ℚ → List ℚ → ℚ)
    (baseline_params candidate_params : List (String × ℚ)) (holdout_df : H)
    (strategy : String) (tbl : List (String × ℚ × ℚ))
    (htbl : gateBounds strategy = some tbl)
    (hfail : ∃ e ∈ tbl, ∃ v, candidate_params.lookup e.1 = some v ∧
      ¬(e.2.1 ≤ v ∧ v ≤ e.2.2)) :
    ∃ err, validate_parameter_bounds candidate_params strategy = (false, err) ∧
      ∀ backtest_func : H → List (String × ℚ) → String →
          Except String (List GTrade),
        validate_optimized_parameters_gate sqrtF bootP baseline_params
          candidate_params holdout_df strategy backtest_func =
          (false, GateMetrics.empty, "Parameter bounds check FAILED: " ++ err) := by
  obtain ⟨msg, hscan⟩ := boundsScan_fails tbl hfail
  have hval : validate_parameter_bounds candidate_params strategy =
      (false, msg) := by
    simp only [validate_parameter_bounds, htbl, hscan]
  refine ⟨msg, hval, fun backtest_func => ?_⟩
  rw [validate_optimized_parameters_gate, hval, if_pos rfl]

/-- Witness for C5's amended statement: a candidate with stop_atr_mult = 5
(outside [1, 4]) is rejected by the bounds check, and the gate verdict is the
bounds failure for every backtest function. -/
theorem c5_out_of_bounds_rejected_before_backtest_witness :
    ∃ err, validate_parameter_bounds [("stop_atr_mult", (5 : ℚ))] "S2" =
        (false, err) ∧
      ∀ backtest_func : Unit → List (String × ℚ) → String →
          Except String (List GTrade),
        validate_optimized_parameters_gate sqrtF16 bootP0 []
          [("stop_atr_mult", (5 : ℚ))] () "S2" backtest_func =
          (false, GateMetrics.empty, "Parameter bounds check FAILED: " ++ err) :=
  c5_out_of_bounds_rejected_before_backtest sqrtF16 bootP0 []
    [("stop_atr_mult", (5 : ℚ))] () "S2" _ rfl
    ⟨("stop_atr_mult", 1, 4),
      List.Mem.tail _ (List.Mem.tail _ (List.Mem.head _)),
      5, rfl, by norm_num⟩

/-- C5 counterexample: the candidate {stop_atr_mult = 3, target_atr_mult =
3.2} violates the cross-field constraint target > stop + 0.5 (3.2 ≤ 3.5) —
parameter_validator's checker rejects it — yet the gate's bounds check passes
it, the backtests run, and the gate's verdict is the *sample-size* failure
(reason of check 3), not a bounds failure: the claim that cross-field
violations are rejected before any backtest is false. -/
theorem c5_cross_field_not_checked_counterexample :
    validate_parameter_bounds [("stop_atr_mult", (3 : ℚ)),
      ("target_atr_mult", (16/5 : ℚ))] "S2" = (true, "") ∧
    ((16/5 : ℚ) ≤ 3 + 1/2) ∧
    (pv_validate_parameter_bounds [("stop_atr_mult", (3 : ℚ)),
      ("target_atr_mult", (16/5 : ℚ))] "S2").1 = false ∧
    validate_optimized_parameters_gate sqrtF16 bootP0 []
      [("stop_atr_mult", (3 : ℚ)), ("target_atr_mult", (16/5 : ℚ))] () "S2"
      (fun _ _ _ => Except.ok []) =
      (false, GateMetrics.pair (calculate_metrics sqrtF16 [])
        (calculate_metrics sqrtF16 []), sampleSizeReason 0) := by
  refine ⟨?_, by norm_num, ?_, ?_⟩
  · norm_num [validate_parameter_bounds, gateBounds, boundsScan, List.lookup]
    all_goals simp
    all_goals norm_num
  · norm_num [pv_validate_parameter_bounds, S2_SAFETY_BOUNDS, List.lookup,
      List.foldr]
    all_goals simp
    all_goals norm_num
  · norm_num [validate_optimized_parameters_gate, validate_parameter_bounds,
      gateBounds, boundsScan, List.lookup, calculate_metrics,
      MIN_TRADES_THRESHOLD]
    all_goals simp
    all_goals norm_num [sampleSizeReason]
